import Mathlib

/-
  Verification of the Business_dashboard_pro backend (src/server.js).

  The server is an Express application over a MySQL store.  We embed each
  table as a list of rows, each route handler as a function from its inputs
  and the database to a response (and, for mutating routes, a new database),
  and the session as an optional user id.  The password-hashing primitive
  (bcrypt) is external; handlers that use it are parameterized by a hash
  function and a verify function.  SQL aggregate semantics are modelled
  exactly: SUM over zero rows is NULL (here `none`), and an aggregate SELECT
  with no GROUP BY always returns exactly one row.
-/

namespace Dashboard

/-- A row of the `users` table. -/
structure UserRow where
  user_id : Nat
  full_name : Option String
  email : String
  password_hash : String
deriving Repr, DecidableEq

/-- A row of the `transactions` table.  Dates are modelled as integer day
numbers; `amount` is a signed integer (the source stores a signed decimal;
all claims use integral amounts). -/
structure TransactionRow where
  transaction_id : Nat
  user_id : Nat
  transaction_date : Int
  description : String
  amount : Int
  transaction_type : String
  category : String
  notes : String
deriving Repr, DecidableEq

/-- A row of the `monthly_sales` table. -/
structure SalesRow where
  user_id : Nat
  year : Int
  month : Nat
  month_name : String
  sales_amount : Int
deriving Repr, DecidableEq

/-- A row of the `business_metrics` table. -/
structure MetricRow where
  user_id : Nat
  metric_date : Int
  total_sales : Int
  total_expenses : Int
  net_profit : Int
deriving Repr, DecidableEq

/-- The relational store: one list per table. -/
structure DB where
  users : List UserRow
  transactions : List TransactionRow
  monthly_sales : List SalesRow
  business_metrics : List MetricRow
deriving Repr, DecidableEq

/-- The per-client session record (`req.session`): `userId` is set by login,
absent before login and after logout/expiry. -/
structure Session where
  userId : Option Nat
deriving Repr, DecidableEq

/-- Full server-visible state: the store plus one client's session. -/
structure ServerState where
  db : DB
  session : Session
deriving Repr, DecidableEq

/-- JSON response bodies actually produced by the handlers.  `totals` fields
are `Option Int` because SQL `SUM` over zero rows yields NULL (`none`). -/
inductive Body where
  | errorMsg (msg : String)
  | success
  | successWithId (transaction_id : Nat)
  | totals (total_sales total_expenses net_profit : Option Int)
  | rows (xs : List TransactionRow)
  | salesRows (xs : List SalesRow)
  | metricRow (m : MetricRow)
  | emptyObj
deriving Repr, DecidableEq

/-- An HTTP response: status code plus JSON body. -/
structure Response where
  status : Nat
  body : Body
deriving Repr, DecidableEq

/-! ### JavaScript/SQL primitives used by the handlers -/

/-- JavaScript falsiness of an optional string field (`!email` in the source):
true for an absent field and for the empty string. -/
def jsFalsy : Option String → Bool
  | none => true
  | some s => s = ""

/-- Normalize an optional query-string parameter the way `if (param)` does in
the source: an absent or empty-string parameter is not applied. -/
def normQ : Option String → Option String
  | none => none
  | some s => if s = "" then none else some s

/-- Whitespace skipped by JavaScript `parseInt`. -/
def jsWhitespace (c : Char) : Bool :=
  c = ' ' || c = '\t' || c = '\n' || c = '\r' || c = '\x0b' || c = '\x0c'

/-- Hexadecimal digit test (for `parseInt`'s `0x` prefix handling). -/
def hexDig (c : Char) : Bool :=
  c.isDigit || ('a' ≤ c && c ≤ 'f') || ('A' ≤ c && c ≤ 'F')

/-- Value of a hexadecimal digit. -/
def hexVal (c : Char) : Nat :=
  if c.isDigit then c.toNat - 48
  else if 'a' ≤ c && c ≤ 'f' then c.toNat - 87
  else c.toNat - 55

/-- Value of a list of decimal digits. -/
def decDigitsVal (ds : List Char) : Nat :=
  ds.foldl (fun acc c => acc * 10 + (c.toNat - 48)) 0

/-- Value of a list of hexadecimal digits. -/
def hexDigitsVal (ds : List Char) : Nat :=
  ds.foldl (fun acc c => acc * 16 + hexVal c) 0

/-- Digit-prefix parsing after sign handling: a `0x`/`0X` prefix switches to
hexadecimal (as JavaScript `parseInt` does with no radix argument); otherwise
the longest leading run of decimal digits is taken; no leading digit → NaN
(`none`). -/
def parseIntChars (sign : Int) (cs : List Char) : Option Int :=
  match cs with
  | '0' :: 'x' :: rest =>
    let hs := rest.takeWhile hexDig
    if hs.isEmpty then none else some (sign * Int.ofNat (hexDigitsVal hs))
  | '0' :: 'X' :: rest =>
    let hs := rest.takeWhile hexDig
    if hs.isEmpty then none else some (sign * Int.ofNat (hexDigitsVal hs))
  | _ =>
    let ds := cs.takeWhile Char.isDigit
    if ds.isEmpty then none else some (sign * Int.ofNat (decDigitsVal ds))

/-- JavaScript `parseInt(s)` (radix unspecified): skip leading whitespace,
optional sign, then digit prefix; `none` models NaN. -/
def jsParseInt (s : String) : Option Int :=
  match s.toList.dropWhile jsWhitespace with
  | '-' :: rest => parseIntChars (-1) rest
  | '+' :: rest => parseIntChars 1 rest
  | cs => parseIntChars 1 cs

/-- ASCII lowercasing of a character list (model of the store's default
case-insensitive collation used by `LIKE`). -/
def lowerList (l : List Char) : List Char := l.map Char.toLower

/-- Does `needle` occur at the head of the list? -/
def startsWithCh : List Char → List Char → Bool
  | _, [] => true
  | [], _ :: _ => false
  | a :: as, b :: bs => a == b && startsWithCh as bs

/-- Does `needle` occur anywhere in the list? -/
def hasSub (needle : List Char) : List Char → Bool
  | [] => needle.isEmpty
  | c :: rest => startsWithCh (c :: rest) needle || hasSub needle rest

/-- `column LIKE '%pat%'` under the store's default case-insensitive
collation: case-insensitive substring containment. -/
def likeMatch (hay pat : String) : Bool :=
  hasSub (lowerList pat.toList) (lowerList hay.toList)

/-- SQL `SUM(f(row))` over a list of grouped rows: NULL (`none`) when the
group is empty, otherwise the sum. -/
def caseSum (f : TransactionRow → Int) : List TransactionRow → Option Int
  | [] => none
  | rows => some ((rows.map f).sum)

/-! ### Orderings used by `ORDER BY` clauses -/

/-- `ORDER BY transaction_date DESC`. -/
def dateDesc (a b : TransactionRow) : Prop :=
  b.transaction_date ≤ a.transaction_date

instance : DecidableRel dateDesc :=
  fun a b => inferInstanceAs (Decidable (b.transaction_date ≤ a.transaction_date))

instance : IsTotal TransactionRow dateDesc :=
  ⟨fun a b => le_total b.transaction_date a.transaction_date⟩

instance : IsTrans TransactionRow dateDesc :=
  ⟨fun _ _ _ h1 h2 => le_trans h2 h1⟩

/-- `ORDER BY month` (ascending) on monthly sales rows. -/
def monthAsc (a b : SalesRow) : Prop := a.month ≤ b.month

instance : DecidableRel monthAsc :=
  fun a b => inferInstanceAs (Decidable (a.month ≤ b.month))

/-- `ORDER BY metric_date DESC` on business-metric rows. -/
def metricDateDesc (a b : MetricRow) : Prop :=
  b.metric_date ≤ a.metric_date

instance : DecidableRel metricDateDesc :=
  fun a b => inferInstanceAs (Decidable (b.metric_date ≤ a.metric_date))

/-! ### Auth route handlers (src/server.js lines 234-292) -/

/-- MySQL auto-increment key for a new `users` row. -/
def nextUserId (db : DB) : Nat :=
  1 + (db.users.map (fun (u : UserRow) => u.user_id)).foldr max 0

/-- MySQL auto-increment key for a new `transactions` row. -/
def nextTransactionId (db : DB) : Nat :=
  1 + (db.transactions.map (fun (t : TransactionRow) => t.transaction_id)).foldr max 0

/-- POST /api/register (lines 234-261): missing/empty email or password →
400; an existing row with the same email → 409; otherwise insert one row
with the bcrypt hash of the password and answer success.  The session is
never touched by this handler. -/
def registerHandler (hash : String → String) (full_name email password : Option String)
    (db : DB) : Response × DB :=
  if jsFalsy email || jsFalsy password then
    (⟨400, .errorMsg "Email and password required"⟩, db)
  else
    let e := email.getD ""
    let existing := db.users.filter (fun u => u.email == e)
    if existing.length > 0 then
      (⟨409, .errorMsg "Email already registered"⟩, db)
    else
      let row : UserRow :=
        ⟨nextUserId db, full_name, e, hash (password.getD "")⟩
      (⟨200, .success⟩, { db with users := db.users ++ [row] })

/-- POST /api/login (lines 263-285): look up by email (a missing email field
becomes SQL NULL and matches no row); no row → 401; then bcrypt-compare the
password against the first row's hash (bcrypt rejects a missing password,
caught as 500); mismatch → the same 401 body; success stores `user_id` in
the session. -/
def loginHandler (verify : String → String → Bool) (email password : Option String)
    (db : DB) (sess : Session) : Response × Session :=
  let rows : List UserRow := match email with
    | none => []
    | some e => db.users.filter (fun u => u.email == e)
  match rows with
  | [] => (⟨401, .errorMsg "Invalid email or password"⟩, sess)
  | u :: _ =>
    match password with
    | none => (⟨500, .errorMsg "Login failed"⟩, sess)
    | some p =>
      if verify p u.password_hash then (⟨200, .success⟩, ⟨some u.user_id⟩)
      else (⟨401, .errorMsg "Invalid email or password"⟩, sess)

/-! ### Transaction route handlers (src/server.js lines 295-419) -/

/-- The WHERE clause of GET /api/transactions (lines 300-327): owner scoping
plus the optional `id`, `search` (LIKE on description/category/notes),
`type`, `start_date` and `end_date` filters, combined with AND. -/
def matchesFilters (userId : Nat) (id : Option Nat) (search ttype : Option String)
    (start_date end_date : Option Int) (t : TransactionRow) : Bool :=
  t.user_id == userId &&
  (match id with | none => true | some i => t.transaction_id == i) &&
  (match search with
   | none => true
   | some s => likeMatch t.description s || likeMatch t.category s || likeMatch t.notes s) &&
  (match ttype with | none => true | some ty => t.transaction_type == ty) &&
  (match start_date with | none => true | some d => decide (d ≤ t.transaction_date)) &&
  (match end_date with | none => true | some d => decide (t.transaction_date ≤ d))

/-- Rows produced by GET /api/transactions before the LIMIT clause: filter,
then ORDER BY transaction_date DESC.  Absent/empty query parameters are not
applied (`if (param)` in the source). -/
def listRows (userId : Nat) (search ttype : Option String) (start_date end_date : Option Int)
    (id : Option Nat) (db : DB) : List TransactionRow :=
  List.insertionSort dateDesc
    (db.transactions.filter (matchesFilters userId id (normQ search) (normQ ttype) start_date end_date))

/-- GET /api/transactions (lines 295-342).  A present non-empty `limit` is
run through `parseInt` and sent to MySQL as the LIMIT argument: a NaN or
negative value is a SQL syntax error, caught as 500. -/
def listTransactionsHandler (userId : Nat) (search ttype : Option String)
    (start_date end_date : Option Int) (limit : Option String) (id : Option Nat)
    (db : DB) : Response :=
  let sorted := listRows userId search ttype start_date end_date id db
  match normQ limit with
  | none => ⟨200, .rows sorted⟩
  | some s =>
    match jsParseInt s with
    | none => ⟨500, .errorMsg "Failed to fetch transactions"⟩
    | some n =>
      if n < 0 then ⟨500, .errorMsg "Failed to fetch transactions"⟩
      else ⟨200, .rows (sorted.take n.toNat)⟩

/-- POST /api/transactions (lines 344-359): insert a row owned by the
session user and return the generated id. -/
def createTransactionHandler (userId : Nat) (transaction_date : Int) (description : String)
    (amount : Int) (transaction_type category notes : String) (db : DB) : Response × DB :=
  let tid := nextTransactionId db
  let row : TransactionRow :=
    ⟨tid, userId, transaction_date, description, amount, transaction_type, category, notes⟩
  (⟨200, .successWithId tid⟩, { db with transactions := db.transactions ++ [row] })

/-- PUT /api/transactions/:id (lines 361-381): UPDATE constrained to
`transaction_id = ? AND user_id = ?`; zero affected rows → 404. -/
def updateTransactionHandler (userId tid : Nat) (transaction_date : Int) (description : String)
    (amount : Int) (transaction_type category notes : String) (db : DB) : Response × DB :=
  let affected := db.transactions.countP
    (fun t => t.transaction_id == tid && t.user_id == userId)
  let updated := db.transactions.map (fun t =>
    if t.transaction_id == tid && t.user_id == userId then
      { t with transaction_date := transaction_date, description := description,
               amount := amount, transaction_type := transaction_type,
               category := category, notes := notes }
    else t)
  if affected == 0 then (⟨404, .errorMsg "Transaction not found"⟩, db)
  else (⟨200, .success⟩, { db with transactions := updated })

/-- Modelled from the spec: src/server.js contains no DELETE
/api/transactions/:id handler (only the PUT handler at lines 361-381);
spec §4.5 states "Delete: same ownership constraint and not-found semantics
as update", so this mirrors the PUT handler's
`WHERE transaction_id = ? AND user_id = ?` and `affectedRows === 0 → 404`
shape with a DELETE statement. -/
def deleteTransactionHandler (userId tid : Nat) (db : DB) : Response × DB :=
  let affected := db.transactions.countP
    (fun t => t.transaction_id == tid && t.user_id == userId)
  let remaining := db.transactions.filter
    (fun t => !(t.transaction_id == tid && t.user_id == userId))
  if affected == 0 then (⟨404, .errorMsg "Transaction not found"⟩, db)
  else (⟨200, .success⟩, { db with transactions := remaining })

/-- The rows of the user's transactions in the trailing window of `d` days:
`transaction_date >= DATE_SUB(CURDATE(), INTERVAL d DAY)` (lines 393-394). -/
def windowTxns (userId : Nat) (today d : Int) (db : DB) : List TransactionRow :=
  db.transactions.filter
    (fun t => t.user_id == userId && decide (today - d ≤ t.transaction_date))

/-- GET /api/transactions/totals (lines 383-403).  `days` defaults to 30.
The aggregate SELECT always returns exactly one row, so the
`rows[0] || zeros` fallback in the source never fires; over an empty window
each SUM is NULL (`none`). -/
def totalsHandler (userId : Nat) (today : Int) (days : Option Int) (db : DB) : Response :=
  let w := windowTxns userId today (days.getD 30) db
  ⟨200, .totals
    (caseSum (fun t => if t.transaction_type == "Income" then t.amount else 0) w)
    (caseSum (fun t => if t.transaction_type == "Expense" then t.amount else 0) w)
    (caseSum (fun t => if t.transaction_type == "Income" then t.amount else -t.amount) w)⟩

/-- GET /api/transactions/recent (lines 405-419): the user's transactions
ordered by date descending; `limit` defaults to 10 (`req.query.limit || 10`)
and is otherwise run through `parseInt` into the LIMIT argument, where NaN
or a negative value is a SQL syntax error caught as 500. -/
def recentHandler (userId : Nat) (limit : Option String) (db : DB) : Response :=
  let sorted := List.insertionSort dateDesc
    (db.transactions.filter (fun t => t.user_id == userId))
  let lim := match normQ limit with
    | none => some (10 : Int)
    | some s => jsParseInt s
  match lim with
  | none => ⟨500, .errorMsg "Failed to fetch recent transactions"⟩
  | some n =>
    if n < 0 then ⟨500, .errorMsg "Failed to fetch recent transactions"⟩
    else ⟨200, .rows (sorted.take n.toNat)⟩

/-! ### Sales/metrics route handlers (src/server.js lines 421-450) -/

/-- GET /api/sales/monthly (lines 422-436): the user's rows for the given
year (default: current year), ordered by month. -/
def salesMonthlyHandler (userId : Nat) (curYear : Int) (year : Option Int) (db : DB) : Response :=
  let y := year.getD curYear
  ⟨200, .salesRows (List.insertionSort monthAsc
    (db.monthly_sales.filter (fun r => r.user_id == userId && r.year == y)))⟩

/-- GET /api/metrics/latest (lines 438-450): most recent row by metric_date,
or an empty object when the user has none. -/
def metricsLatestHandler (userId : Nat) (db : DB) : Response :=
  match List.insertionSort metricDateDesc
      (db.business_metrics.filter (fun m => m.user_id == userId)) with
  | [] => ⟨200, .emptyObj⟩
  | m :: _ => ⟨200, .metricRow m⟩

/-- Does a metric row belong to the `(user_id, metric_date)` key? -/
def metricHit (userId : Nat) (metric_date : Int) (m : MetricRow) : Bool :=
  m.user_id == userId && m.metric_date == metric_date

/-- Modelled from the spec: src/server.js contains no POST /api/metrics
handler; spec §4.6 states "Metric upsert: insert a `(user_id, metric_date)`
pair; if the pair already exists, overwrite `total_sales`, `total_expenses`,
`net_profit` with the new values", an atomic single-statement
insert-or-update on the pair's unique key. -/
def metricsUpsertHandler (userId : Nat) (metric_date total_sales total_expenses net_profit : Int)
    (db : DB) : Response × DB :=
  let newMetrics :=
    if db.business_metrics.any (metricHit userId metric_date) then
      db.business_metrics.map (fun m =>
        if metricHit userId metric_date m then
          { m with total_sales := total_sales, total_expenses := total_expenses,
                   net_profit := net_profit }
        else m)
    else
      db.business_metrics ++ [⟨userId, metric_date, total_sales, total_expenses, net_profit⟩]
  (⟨200, .success⟩, { db with business_metrics := newMetrics })

/-! ### Router -/

/-- One API request, with its body/query parameters.  Query-string
parameters that the handlers feed to `parseInt` are kept as raw strings. -/
inductive ApiRequest where
  | register (full_name email password : Option String)
  | login (email password : Option String)
  | logout
  | salesMonthly (year : Option Int)
  | metricsLatest
  | metricsUpsert (metric_date total_sales total_expenses net_profit : Int)
  | listTransactions (search ttype : Option String) (start_date end_date : Option Int)
      (limit : Option String) (id : Option Nat)
  | createTransaction (transaction_date : Int) (description : String) (amount : Int)
      (transaction_type category notes : String)
  | updateTransaction (id : Nat) (transaction_date : Int) (description : String) (amount : Int)
      (transaction_type category notes : String)
  | totals (days : Option Int)
  | recent (limit : Option String)
  | deleteTransaction (id : Nat)
deriving Repr, DecidableEq

/-- Routes guarded by the `requireLogin` middleware (lines 226-231): every
API route except register, login and logout. -/
def isProtected : ApiRequest → Bool
  | .register _ _ _ => false
  | .login _ _ => false
  | .logout => false
  | _ => true

/-- Dispatch of an authenticated request to its handler, with the session's
`userId` as the scoping key. -/
def dispatchProtected (today curYear : Int) (uid : Nat) (req : ApiRequest) (db : DB) :
    Response × DB :=
  match req with
  | .salesMonthly y => (salesMonthlyHandler uid curYear y db, db)
  | .metricsLatest => (metricsLatestHandler uid db, db)
  | .metricsUpsert md a b c => metricsUpsertHandler uid md a b c db
  | .listTransactions s ty sd ed l i => (listTransactionsHandler uid s ty sd ed l i db, db)
  | .createTransaction d de am ty ca no => createTransactionHandler uid d de am ty ca no db
  | .updateTransaction i d de am ty ca no => updateTransactionHandler uid i d de am ty ca no db
  | .totals d => (totalsHandler uid today d db, db)
  | .recent l => (recentHandler uid l db, db)
  | .deleteTransaction i => deleteTransactionHandler uid i db
  | _ => (⟨404, .errorMsg "Not found"⟩, db)

/-- The router: auth routes run directly; every other route first passes the
`requireLogin` gate (lines 226-231), answering 401 before any store access
when the session carries no `userId`. -/
def handle (hash : String → String) (verify : String → String → Bool) (today curYear : Int)
    (req : ApiRequest) (st : ServerState) : Response × ServerState :=
  match req with
  | .register fn e p =>
    let r := registerHandler hash fn e p st.db
    (r.1, { st with db := r.2 })
  | .login e p =>
    let r := loginHandler verify e p st.db st.session
    (r.1, { st with session := r.2 })
  | .logout => (⟨200, .success⟩, { st with session := ⟨none⟩ })
  | _ =>
    match st.session.userId with
    | none => (⟨401, .errorMsg "Not authenticated"⟩, st)
    | some uid =>
      let r := dispatchProtected today curYear uid req st.db
      (r.1, { st with db := r.2 })

/-! ### Spec-side reference definition for the totals body -/

/-- The totals body as the spec's words describe it: each field is the
(always non-null) sum over the window — `total_sales` the sum of Income
amounts, `total_expenses` the sum of Expense amounts, `net_profit` the sum
of signed amounts.  Compared against `totalsHandler`'s actual body. -/
def specTotalsBody (userId : Nat) (today d : Int) (db : DB) : Body :=
  let w := windowTxns userId today d db
  .totals
    (some (((w.filter (fun t => t.transaction_type == "Income")).map (fun t => t.amount)).sum))
    (some (((w.filter (fun t => t.transaction_type == "Expense")).map (fun t => t.amount)).sum))
    (some ((w.map (fun t => if t.transaction_type == "Income" then t.amount else -t.amount)).sum))

/-! ### Concrete stores used as witnesses -/

/-- An empty store. -/
def dbEmpty : DB := ⟨[], [], [], []⟩

/-- An Expense of 50, inside the 30-day window before day 100. -/
def txExpense50 : TransactionRow := ⟨1, 1, 95, "office rent", 50, "Expense", "Rent", ""⟩

/-- An Income of 200, inside the 30-day window before day 100. -/
def txIncome200 : TransactionRow := ⟨2, 1, 99, "client sale", 200, "Income", "Sales", ""⟩

/-- Store holding the spec's two-transaction totals example for user 1. -/
def dbTwo : DB := ⟨[], [txExpense50, txIncome200], [], []⟩

/-- A transaction owned by user 1. -/
def txOwn : TransactionRow := ⟨1, 1, 10, "lunch", 5, "Expense", "Food", ""⟩

/-- A transaction owned by user 2. -/
def txOther : TransactionRow := ⟨2, 2, 11, "sale", 6, "Income", "Sales", ""⟩

/-- Store with one transaction each for users 1 and 2. -/
def dbDel : DB := ⟨[], [txOwn, txOther], [], []⟩

/-- A registered user whose stored hash is the model hash of "pw". -/
def userAda : UserRow := ⟨1, some "Ada", "ada@example.com", "H-pw"⟩

/-- Store holding exactly the user `userAda`. -/
def dbOneUser : DB := ⟨[userAda], [], [], []⟩

/-- Store for the search-filter witness: two rows of user 1 (one matching
"rent" in its description) and a matching row of user 2. -/
def dbRent : DB :=
  ⟨[],
   [⟨1, 1, 10, "Monthly Rent", 900, "Expense", "Housing", ""⟩,
    ⟨2, 1, 12, "Groceries", 100, "Expense", "Food", ""⟩,
    ⟨3, 2, 11, "Rent income", 500, "Income", "Rent", ""⟩],
   [], []⟩

/-- Store with six transactions of user 1, dated day 1 to day 6. -/
def dbSix : DB :=
  ⟨[],
   [⟨1, 1, 1, "t1", 1, "Expense", "c", ""⟩,
    ⟨2, 1, 2, "t2", 1, "Expense", "c", ""⟩,
    ⟨3, 1, 3, "t3", 1, "Expense", "c", ""⟩,
    ⟨4, 1, 4, "t4", 1, "Expense", "c", ""⟩,
    ⟨5, 1, 5, "t5", 1, "Expense", "c", ""⟩,
    ⟨6, 1, 6, "t6", 1, "Expense", "c", ""⟩],
   [], []⟩

/-! ### Shared lemmas -/

/-- Summing a guarded map equals summing the map over the filtered list. -/
theorem sum_map_ite_eq_filter (p : TransactionRow → Bool) (f : TransactionRow → Int)
    (l : List TransactionRow) :
    (l.map (fun t => if p t then f t else 0)).sum = ((l.filter p).map f).sum := by
  induction l with
  | nil => rfl
  | cons a l ih =>
    by_cases h : p a = true <;> simp [List.filter_cons, h, ih]

/-- The `requireLogin` gate: a protected request with no session `userId`
answers 401 and leaves the whole state unchanged. -/
theorem handle_unauth (hash : String → String) (verify : String → String → Bool)
    (today curYear : Int) (req : ApiRequest) (st : ServerState)
    (hp : isProtected req = true) (hs : st.session.userId = none) :
    handle hash verify today curYear req st
      = (⟨401, .errorMsg "Not authenticated"⟩, st) := by
  cases req <;> simp [isProtected] at hp <;> simp [handle, hs]

/-! ### C1 -/

/-- C1: the claim says an authenticated totals request over a window with no
transaction rows answers 200 with each field exactly zero, never null.  The
code instead answers 200 with each field null: the aggregate SELECT always
returns one row, so the `rows[0] || zeros` fallback never fires, and SQL SUM
over zero rows is NULL.  This theorem evaluates the router at the failing
input (authenticated user 1, empty store, default `days`). -/
theorem totals_empty_window_gives_nulls :
    (handle id (fun _ _ => false) 0 2025 (.totals none) ⟨dbEmpty, ⟨some 1⟩⟩
      = (⟨200, .totals none none none⟩, ⟨dbEmpty, ⟨some 1⟩⟩))
    ∧ Body.totals none none none ≠ Body.totals (some 0) (some 0) (some 0) :=
  ⟨by decide, by decide⟩

/-! ### C4 -/

/-- C4 counterexample: at the empty store the claimed equality between the
response fields and the window sums fails — the sums are zero, but the
handler's fields are null. -/
theorem totals_body_differs_from_sums_on_empty :
    (totalsHandler 1 0 none dbEmpty).body ≠ specTotalsBody 1 0 30 dbEmpty := by
  decide

/-- C4 (amended): over a trailing window of `d` days that contains at least
one of the user's transactions, the totals response is 200 with
`total_sales` the sum of Income amounts, `total_expenses` the sum of Expense
amounts, and `net_profit` the signed sum; an absent `days` parameter behaves
as 30. -/
theorem totals_are_window_sums (userId : Nat) (today d : Int) (db : DB)
    (h : windowTxns userId today d db ≠ []) :
    totalsHandler userId today (some d) db = ⟨200, specTotalsBody userId today d db⟩
    ∧ totalsHandler userId today none db = totalsHandler userId today (some 30) db := by
  constructor
  · obtain ⟨a, l, hw⟩ : ∃ a l, windowTxns userId today d db = a :: l := by
      cases hc : windowTxns userId today d db with
      | nil => exact absurd hc h
      | cons a l => exact ⟨a, l, rfl⟩
    simp only [totalsHandler, specTotalsBody, Option.getD_some, hw, caseSum]
    rw [sum_map_ite_eq_filter (fun t => t.transaction_type == "Income") (fun t => t.amount),
        sum_map_ite_eq_filter (fun t => t.transaction_type == "Expense") (fun t => t.amount)]
  · rfl

/-- C4 witness: the spec's example — one Expense of 50 and one Income of 200
inside the window — yields totals 200/50/150. -/
theorem totals_are_window_sums_witness :
    windowTxns 1 100 30 dbTwo ≠ []
    ∧ totalsHandler 1 100 (some 30) dbTwo
        = ⟨200, .totals (some 200) (some 50) (some 150)⟩ := by
  refine ⟨by decide, ?_⟩
  rw [(totals_are_window_sums 1 100 30 dbTwo (by decide)).1]
  decide

/-! ### C5 -/

/-- C5: every protected route (every API route except register, login and
logout) answers 401 with a JSON error body and performs no store operation
when the session carries no `userId`; with a valid session the handler runs
with the session's `userId` as the scoping key. -/
theorem auth_gate (hash : String → String) (verify : String → String → Bool)
    (today curYear : Int) (req : ApiRequest) (st : ServerState) (uid : Nat) :
    (isProtected req = true → st.session.userId = none →
      handle hash verify today curYear req st = (⟨401, .errorMsg "Not authenticated"⟩, st))
    ∧ (isProtected req = true → st.session.userId = some uid →
      handle hash verify today curYear req st
        = ((dispatchProtected today curYear uid req st.db).1,
           { st with db := (dispatchProtected today curYear uid req st.db).2 })) := by
  constructor
  · intro hp hs
    exact handle_unauth hash verify today curYear req st hp hs
  · intro hp hs
    cases req <;> simp [isProtected] at hp <;> simp [handle, dispatchProtected, hs]

/-- C5 witness: a metrics request with an empty session answers 401 and
leaves the state unchanged. -/
theorem auth_gate_witness :
    handle id (fun _ _ => false) 0 2025 .metricsLatest ⟨dbTwo, ⟨none⟩⟩
      = (⟨401, .errorMsg "Not authenticated"⟩, ⟨dbTwo, ⟨none⟩⟩) :=
  (auth_gate id (fun _ _ => false) 0 2025 .metricsLatest ⟨dbTwo, ⟨none⟩⟩ 0).1 rfl rfl

/-! ### C9 -/

/-- C9: a register request leaves the session unchanged — registration never
sets `userId` — so with no prior session every protected route still answers
401 after a registration. -/
theorem register_leaves_session (hash : String → String) (verify : String → String → Bool)
    (today curYear : Int) (fn e p : Option String) (st : ServerState) :
    ((handle hash verify today curYear (.register fn e p) st).2.session = st.session)
    ∧ (st.session.userId = none → ∀ req, isProtected req = true →
        handle hash verify today curYear req
            (handle hash verify today curYear (.register fn e p) st).2
          = (⟨401, .errorMsg "Not authenticated"⟩,
             (handle hash verify today curYear (.register fn e p) st).2)) := by
  have hsess : (handle hash verify today curYear (.register fn e p) st).2.session
      = st.session := by
    simp [handle]
  refine ⟨hsess, ?_⟩
  intro hs req hp
  exact handle_unauth hash verify today curYear req _ hp (by rw [hsess]; exact hs)

/-- C9 witness: after a successful registration on an empty store with no
session, a protected request still answers 401. -/
theorem register_leaves_session_witness :
    (handle id (fun _ _ => false) 0 2025 .metricsLatest
        (handle id (fun _ _ => false) 0 2025
          (.register (some "Ada") (some "ada@example.com") (some "pw"))
          ⟨dbEmpty, ⟨none⟩⟩).2).1
      = ⟨401, .errorMsg "Not authenticated"⟩ := by
  rw [(register_leaves_session id (fun _ _ => false) 0 2025
        (some "Ada") (some "ada@example.com") (some "pw")
        ⟨dbEmpty, ⟨none⟩⟩).2 rfl .metricsLatest rfl]

/-! ### C2 -/

/-- C2 (spec-modelled DELETE handler): deleting an existing transaction of
the caller removes exactly the matching rows and answers 200 success; when
no row matches the caller's id — wrong id or a row owned by a different
user — the handler answers 404 and the store is unchanged; rows owned by
other users always survive. -/
theorem delete_semantics (uid tid : Nat) (db : DB) :
    (db.transactions.any (fun t => t.transaction_id == tid && t.user_id == uid) = true →
      (deleteTransactionHandler uid tid db).1 = ⟨200, .success⟩
      ∧ (deleteTransactionHandler uid tid db).2.transactions
          = db.transactions.filter (fun t => !(t.transaction_id == tid && t.user_id == uid)))
    ∧ (db.transactions.any (fun t => t.transaction_id == tid && t.user_id == uid) = false →
      (deleteTransactionHandler uid tid db).1 = ⟨404, .errorMsg "Transaction not found"⟩
      ∧ (deleteTransactionHandler uid tid db).2 = db)
    ∧ (∀ t ∈ db.transactions, t.user_id ≠ uid →
        t ∈ (deleteTransactionHandler uid tid db).2.transactions) := by
  refine ⟨?_, ?_, ?_⟩
  · intro h
    have hc : db.transactions.countP
        (fun t => t.transaction_id == tid && t.user_id == uid) ≠ 0 := by
      rcases List.any_eq_true.mp h with ⟨a, ha, hpa⟩
      exact Nat.pos_iff_ne_zero.mp (List.countP_pos_iff.mpr ⟨a, ha, hpa⟩)
    simp [deleteTransactionHandler, hc]
  · intro h
    have hc : db.transactions.countP
        (fun t => t.transaction_id == tid && t.user_id == uid) = 0 :=
      List.countP_eq_zero.mpr (List.any_eq_false.mp h)
    simp [deleteTransactionHandler, hc]
  · intro t ht hne
    unfold deleteTransactionHandler
    simp only []
    split
    · simpa using ht
    · simp [List.mem_filter, ht, hne]

/-- C2 witness: user 1 deletes their transaction 1 — success — while user
2's row survives; and user 1 deleting user 2's row answers 404 with the
store intact. -/
theorem delete_semantics_witness :
    (deleteTransactionHandler 1 1 dbDel).1 = ⟨200, .success⟩
    ∧ txOther ∈ (deleteTransactionHandler 1 1 dbDel).2.transactions
    ∧ (deleteTransactionHandler 1 2 dbDel).1 = ⟨404, .errorMsg "Transaction not found"⟩
    ∧ (deleteTransactionHandler 1 2 dbDel).2 = dbDel := by
  refine ⟨((delete_semantics 1 1 dbDel).1 (by decide)).1,
          (delete_semantics 1 1 dbDel).2.2 txOther (by decide) (by decide),
          ((delete_semantics 1 2 dbDel).2.1 (by decide)).1,
          ((delete_semantics 1 2 dbDel).2.1 (by decide)).2⟩

/-! ### C6 -/

/-- C6: a login with an email matching no user and a login with an existing
email but a failing password verification produce the very same response —
status 401 and the same body — so the response does not reveal whether the
account exists.  The session is unchanged in both cases. -/
theorem login_no_account_leak (verify : String → String → Bool) (db : DB) (sess : Session)
    (e1 p1 e2 p2 : String) (u : UserRow)
    (h1 : db.users.filter (fun x => x.email == e1) = [])
    (h2 : (db.users.filter (fun x => x.email == e2)).head? = some u)
    (h3 : verify p2 u.password_hash = false) :
    loginHandler verify (some e1) (some p1) db sess
      = (⟨401, .errorMsg "Invalid email or password"⟩, sess)
    ∧ loginHandler verify (some e2) (some p2) db sess
      = (⟨401, .errorMsg "Invalid email or password"⟩, sess) := by
  constructor
  · simp [loginHandler, h1]
  · obtain ⟨tl, htl⟩ := List.head?_eq_some_iff.mp h2
    simp [loginHandler, htl, h3]

/-- C6 witness: with one stored user, login for an unknown email and login
for the stored email with a wrong password answer identically. -/
theorem login_no_account_leak_witness :
    loginHandler (fun p h => ("H-" ++ p) == h) (some "ghost@example.com") (some "pw")
        dbOneUser ⟨none⟩
      = (⟨401, .errorMsg "Invalid email or password"⟩, ⟨none⟩)
    ∧ loginHandler (fun p h => ("H-" ++ p) == h) (some "ada@example.com") (some "wrong")
        dbOneUser ⟨none⟩
      = (⟨401, .errorMsg "Invalid email or password"⟩, ⟨none⟩) :=
  login_no_account_leak (fun p h => ("H-" ++ p) == h) dbOneUser ⟨none⟩
    "ghost@example.com" "pw" "ada@example.com" "wrong" userAda
    (by decide) (by decide) (by decide)

/-! ### C7 -/

/-- C7: registration with a missing or empty email or password answers 400
and inserts nothing; with a fresh email it inserts exactly one row holding
the hashed password and answers success; a second registration with the same
email answers 409 and changes nothing, so exactly one row for that email
remains. -/
theorem register_semantics (hash : String → String) (fn1 fn2 : Option String)
    (e p1 p2 : String) (db : DB)
    (he : e ≠ "") (hp1 : p1 ≠ "") (hp2 : p2 ≠ "")
    (h0 : db.users.countP (fun x => x.email == e) = 0) :
    (registerHandler hash fn1 (some e) (some p1) db).1 = ⟨200, .success⟩
    ∧ (registerHandler hash fn1 (some e) (some p1) db).2.users
        = db.users ++ [⟨nextUserId db, fn1, e, hash p1⟩]
    ∧ (registerHandler hash fn1 (some e) (some p1) db).2.users.countP
        (fun x => x.email == e) = 1
    ∧ (registerHandler hash fn2 (some e) (some p2)
          (registerHandler hash fn1 (some e) (some p1) db).2).1
        = ⟨409, .errorMsg "Email already registered"⟩
    ∧ (registerHandler hash fn2 (some e) (some p2)
          (registerHandler hash fn1 (some e) (some p1) db).2).2
        = (registerHandler hash fn1 (some e) (some p1) db).2
    ∧ (∀ fn eo po, (jsFalsy eo || jsFalsy po) = true →
        registerHandler hash fn eo po db
          = (⟨400, .errorMsg "Email and password required"⟩, db)) := by
  have hfil : db.users.filter (fun x => x.email == e) = [] :=
    List.filter_eq_nil_iff.mpr (List.countP_eq_zero.mp h0)
  have hstep : registerHandler hash fn1 (some e) (some p1) db
      = (⟨200, .success⟩,
         { db with users := db.users ++ [⟨nextUserId db, fn1, e, hash p1⟩] }) := by
    simp [registerHandler, jsFalsy, he, hp1, hfil]
  have hcount : (db.users ++ [(⟨nextUserId db, fn1, e, hash p1⟩ : UserRow)]).countP
      (fun x => x.email == e) = 1 := by
    rw [List.countP_append, h0]
    simp
  have hfil2 : (db.users ++ [(⟨nextUserId db, fn1, e, hash p1⟩ : UserRow)]).filter
      (fun x => x.email == e) = [⟨nextUserId db, fn1, e, hash p1⟩] := by
    rw [List.filter_append, hfil]
    simp
  refine ⟨by rw [hstep], by rw [hstep], by rw [hstep]; exact hcount, ?_, ?_, ?_⟩
  · rw [hstep]
    simp [registerHandler, jsFalsy, he, hp2, hfil2]
  · rw [hstep]
    simp [registerHandler, jsFalsy, he, hp2, hfil2]
  · intro fn eo po hf
    simp [registerHandler, hf]

/-- C7 witness: on the empty store, registering twice with the same email
succeeds once, conflicts the second time, leaves one row, and the
missing-field case answers 400. -/
theorem register_semantics_witness :
    (registerHandler (fun p => "H-" ++ p) (some "Ada") (some "ada@example.com") (some "pw")
        dbEmpty).1 = ⟨200, .success⟩
    ∧ (registerHandler (fun p => "H-" ++ p) (some "Bob") (some "ada@example.com") (some "qq")
        (registerHandler (fun p => "H-" ++ p) (some "Ada") (some "ada@example.com") (some "pw")
          dbEmpty).2).1 = ⟨409, .errorMsg "Email already registered"⟩
    ∧ (registerHandler (fun p => "H-" ++ p) (some "Ada") (some "ada@example.com") (some "pw")
        dbEmpty).2.users.countP (fun x => x.email == "ada@example.com") = 1
    ∧ registerHandler (fun p => "H-" ++ p) (some "Eve") none (some "pw") dbEmpty
        = (⟨400, .errorMsg "Email and password required"⟩, dbEmpty) := by
  have H := register_semantics (fun p => "H-" ++ p) (some "Ada") (some "Bob")
    "ada@example.com" "pw" "qq" dbEmpty (by decide) (by decide) (by decide) (by decide)
  exact ⟨H.1, H.2.2.2.1, H.2.2.1, H.2.2.2.2.2 (some "Eve") none (some "pw") (by decide)⟩

/-! ### C3 -/

/-- Overwriting the totals of a row that matches the `(user_id, metric_date)`
key yields exactly the fresh row for that key. -/
theorem overwrite_hit_row (uid : Nat) (md a b c : Int) (m : MetricRow)
    (hm : metricHit uid md m = true) :
    ({ m with total_sales := a, total_expenses := b, net_profit := c } : MetricRow)
      = ⟨uid, md, a, b, c⟩ := by
  cases m
  simp only [metricHit, Bool.and_eq_true, beq_iff_eq] at hm
  simp [hm.1, hm.2]

/-- Filtering the key out of the overwrite-map leaves one fresh row per
previous hit. -/
theorem filter_map_overwrite (uid : Nat) (md a b c : Int) (l : List MetricRow) :
    (l.map (fun m =>
        if metricHit uid md m then
          { m with total_sales := a, total_expenses := b, net_profit := c }
        else m)).filter (metricHit uid md)
      = List.replicate (l.countP (metricHit uid md)) (⟨uid, md, a, b, c⟩ : MetricRow) := by
  induction l with
  | nil => rfl
  | cons x l ih =>
    by_cases hx : metricHit uid md x = true
    · have hkey := overwrite_hit_row uid md a b c x hx
      simp [List.filter_cons, List.countP_cons, hx, hkey, ih, List.replicate_succ,
        show metricHit uid md ⟨uid, md, a, b, c⟩ = true by simp [metricHit]]
    · simp [List.filter_cons, List.countP_cons, hx, ih]

/-- After one upsert, the rows matching the key are exactly one fresh row per
previous hit, or a single fresh row if there was none. -/
theorem upsert_filter (uid : Nat) (md a b c : Int) (db : DB) :
    (metricsUpsertHandler uid md a b c db).2.business_metrics.filter (metricHit uid md)
      = List.replicate (max 1 (db.business_metrics.countP (metricHit uid md)))
          (⟨uid, md, a, b, c⟩ : MetricRow) := by
  by_cases h : db.business_metrics.any (metricHit uid md) = true
  · have hpos : 0 < db.business_metrics.countP (metricHit uid md) :=
      List.countP_pos_iff.mpr (List.any_eq_true.mp h)
    have hmax : max 1 (db.business_metrics.countP (metricHit uid md))
        = db.business_metrics.countP (metricHit uid md) := by omega
    simp only [metricsUpsertHandler, h, if_true, hmax]
    exact filter_map_overwrite uid md a b c db.business_metrics
  · have hzero : db.business_metrics.countP (metricHit uid md) = 0 :=
      List.countP_eq_zero.mpr (List.any_eq_false.mp (Bool.not_eq_true _ ▸ eq_false_of_ne_true h))
    simp only [metricsUpsertHandler, h, if_false, Bool.false_eq_true]
    rw [List.filter_append, List.filter_eq_nil_iff.mpr (List.countP_eq_zero.mp hzero), hzero]
    simp [metricHit]

/-- C3 (spec-modelled upsert): a metric upsert always answers success, and
after two upserts for the same `(user_id, metric_date)` pair — on a store
satisfying the pair's unique-key invariant — exactly one row exists for the
pair and it holds the latest call's values. -/
theorem metrics_upsert_twice (uid : Nat) (md a1 b1 c1 a2 b2 c2 : Int) (db : DB)
    (h : db.business_metrics.countP (metricHit uid md) ≤ 1) :
    (metricsUpsertHandler uid md a1 b1 c1 db).1 = ⟨200, .success⟩
    ∧ (metricsUpsertHandler uid md a2 b2 c2
          (metricsUpsertHandler uid md a1 b1 c1 db).2).1 = ⟨200, .success⟩
    ∧ (metricsUpsertHandler uid md a2 b2 c2
          (metricsUpsertHandler uid md a1 b1 c1 db).2).2.business_metrics.filter
        (metricHit uid md)
      = [(⟨uid, md, a2, b2, c2⟩ : MetricRow)] := by
  refine ⟨rfl, rfl, ?_⟩
  have h1 := upsert_filter uid md a1 b1 c1 db
  have hcount1 : (metricsUpsertHandler uid md a1 b1 c1 db).2.business_metrics.countP
      (metricHit uid md) = 1 := by
    rw [List.countP_eq_length_filter, h1, List.length_replicate]
    omega
  rw [upsert_filter uid md a2 b2 c2 _, hcount1]
  rfl

/-- C3 witness: two upserts for `(1, 10)` on the empty store leave exactly
one row for the pair, holding the second call's totals. -/
theorem metrics_upsert_twice_witness :
    (metricsUpsertHandler 1 10 7 8 9
        (metricsUpsertHandler 1 10 4 5 6 dbEmpty).2).2.business_metrics.filter
      (metricHit 1 10)
    = [(⟨1, 10, 7, 8, 9⟩ : MetricRow)] :=
  (metrics_upsert_twice 1 10 4 5 6 7 8 9 dbEmpty (by decide)).2.2

/-! ### C8 -/

/-- C8: the transactions listing returns exactly the rows of the store that
are owned by the session user and satisfy the conjunction of the supplied
filters (id exact match; search as case-insensitive substring of
description, category or notes; type exact match; inclusive date range),
ordered by transaction_date descending; a parsed non-negative limit caps the
result via a take of that count. -/
theorem list_filters (uid : Nat) (search ttype : Option String) (sd ed : Option Int)
    (i : Option Nat) (db : DB) :
    (∀ t, t ∈ listRows uid search ttype sd ed i db ↔
        t ∈ db.transactions
        ∧ matchesFilters uid i (normQ search) (normQ ttype) sd ed t = true)
    ∧ (listRows uid search ttype sd ed i db).Sorted dateDesc
    ∧ listTransactionsHandler uid search ttype sd ed none i db
        = ⟨200, .rows (listRows uid search ttype sd ed i db)⟩
    ∧ (∀ s n, jsParseInt s = some n → 0 ≤ n →
        listTransactionsHandler uid search ttype sd ed (some s) i db
          = ⟨200, .rows ((listRows uid search ttype sd ed i db).take n.toNat)⟩) := by
  refine ⟨?_, ?_, rfl, ?_⟩
  · intro t
    rw [listRows, List.mem_insertionSort, List.mem_filter]
  · exact List.sorted_insertionSort dateDesc _
  · intro s n hs hn
    have hsne : s ≠ "" := by
      intro hemp
      rw [hemp] at hs
      exact absurd hs (by simp [jsParseInt, parseIntChars])
    simp [listTransactionsHandler, normQ, hsne, hs, not_lt.mpr hn]

/-- C8 witness: with `search=rent`, user 1's listing contains their
"Monthly Rent" row (matched case-insensitively in the description), excludes
their non-matching row and user 2's matching row, and a limit of 1 takes the
first row of the sorted result. -/
theorem list_filters_witness :
    ((⟨1, 1, 10, "Monthly Rent", 900, "Expense", "Housing", ""⟩ : TransactionRow)
        ∈ listRows 1 (some "rent") none none none none dbRent)
    ∧ ¬ ((⟨2, 1, 12, "Groceries", 100, "Expense", "Food", ""⟩ : TransactionRow)
        ∈ listRows 1 (some "rent") none none none none dbRent)
    ∧ ¬ ((⟨3, 2, 11, "Rent income", 500, "Income", "Rent", ""⟩ : TransactionRow)
        ∈ listRows 1 (some "rent") none none none none dbRent)
    ∧ listTransactionsHandler 1 (some "rent") none none none (some "1") none dbRent
        = ⟨200, .rows ((listRows 1 (some "rent") none none none none dbRent).take
            (Int.toNat 1))⟩ := by
  have H := list_filters 1 (some "rent") none none none none dbRent
  refine ⟨(H.1 _).mpr ⟨by decide, by decide⟩, ?_, ?_,
          H.2.2.2 "1" 1 (by decide) (by decide)⟩
  · intro hmem
    exact absurd ((H.1 _).mp hmem).2 (by decide)
  · intro hmem
    exact absurd ((H.1 _).mp hmem).2 (by decide)

/-! ### C10 -/

/-- C10: a supplied `limit` is interpreted by JavaScript `parseInt` — its
digit prefix when one exists, so "5x" caps at 5 rows — while a limit with no
leading digit parses as NaN, reaches MySQL as an invalid LIMIT argument, and
the request fails with 500 on both the listing and the recent endpoint
instead of the filter being ignored. -/
theorem limit_uses_parseInt (uid : Nat) (db : DB) (s : String) :
    jsParseInt "5x" = some 5
    ∧ (∀ n : Int, jsParseInt s = some n → 0 ≤ n →
        recentHandler uid (some s) db
          = ⟨200, .rows ((List.insertionSort dateDesc
              (db.transactions.filter (fun t => t.user_id == uid))).take n.toNat)⟩)
    ∧ (jsParseInt s = none → s ≠ "" →
        recentHandler uid (some s) db
          = ⟨500, .errorMsg "Failed to fetch recent transactions"⟩)
    ∧ (∀ search ttype sd ed i, jsParseInt s = none → s ≠ "" →
        listTransactionsHandler uid search ttype sd ed (some s) i db
          = ⟨500, .errorMsg "Failed to fetch transactions"⟩) := by
  refine ⟨by decide, ?_, ?_, ?_⟩
  · intro n hs hn
    have hsne : s ≠ "" := by
      intro hemp
      rw [hemp] at hs
      exact absurd hs (by simp [jsParseInt, parseIntChars])
    simp [recentHandler, normQ, hsne, hs, not_lt.mpr hn]
  · intro hs hsne
    simp [recentHandler, normQ, hsne, hs]
  · intro search ttype sd ed i hs hsne
    simp [listTransactionsHandler, normQ, hsne, hs]

/-- C10 witness: on a store with six rows of user 1, limit "5x" caps the
recent listing at the first five rows by date descending, and limit "x"
fails with 500. -/
theorem limit_uses_parseInt_witness :
    jsParseInt "5x" = some 5
    ∧ recentHandler 1 (some "5x") dbSix
        = ⟨200, .rows ((List.insertionSort dateDesc
            (dbSix.transactions.filter (fun t => t.user_id == 1))).take
              (Int.toNat 5))⟩
    ∧ recentHandler 1 (some "x") dbSix
        = ⟨500, .errorMsg "Failed to fetch recent transactions"⟩ :=
  ⟨(limit_uses_parseInt 1 dbSix "x").1,
   (limit_uses_parseInt 1 dbSix "5x").2.1 5 (by decide) (by decide),
   (limit_uses_parseInt 1 dbSix "x").2.2.1 (by decide) (by decide)⟩

end Dashboard
